import Mathlib

/-!
Shallow embedding of `src/src/reporter/event/action.rs`: the Action event
model of the cargo-msrv reporter. It covers the `Action` struct, the
`ActionDetails` and `ActionStatus` unions, `ScopePosition`, the name and
status derivations, the factory constructors, scope attachment,
`must_report`, and the shape of the serde serialization.
-/

namespace CargoMsrv

/-- Modelled from the spec: `crate::ReleaseSource` is not under `src/`;
the spec describes it as a release-source descriptor whose internal shape
this core does not interpret beyond holding and serializing it. -/
structure ReleaseSource where
  payload : Nat
deriving DecidableEq

/-- Modelled from the spec: `crate::toolchain::OwnedToolchainSpec` is not
under `src/`; the spec describes it as a toolchain specification whose
internal shape this core does not interpret. -/
structure OwnedToolchainSpec where
  payload : Nat
deriving DecidableEq

/-- Modelled from the spec: `rust_releases::semver::Version` is an external
semantic-version value (major, minor, patch). -/
structure Version where
  major : Nat
  minor : Nat
  patch : Nat
deriving DecidableEq

/-- The `ScopePosition` enum of `action.rs`. -/
inductive ScopePosition
  | Start
  | End
deriving DecidableEq

/-- The `ActionStatus` enum of `action.rs`, variants in source order. -/
inductive ActionStatus
  | Fetching
  | Check
  | Setup
  | Running
  | Passed
  | Failed
deriving DecidableEq

/-- `ActionStatus::as_str` of `action.rs`. -/
def ActionStatus.as_str : ActionStatus → String
  | .Fetching => "Fetching"
  | .Check => "Check"
  | .Setup => "Setup"
  | .Running => "Running"
  | .Passed => "[Pass]"
  | .Failed => "[Fail]"

/-- `ActionDetails` as used throughout `action.rs`: the five variants of the
enum declaration together with the `FetchingIndex` variant that
`Action::fetching_index` and both `From` impls construct and match on
(the declaration itself omits it; see `ActionDetailsDeclared`). -/
inductive ActionDetails
  | FetchingIndex (source : ReleaseSource)
  | SetupToolchain (toolchain : OwnedToolchainSpec)
  | CheckToolchain (toolchain : OwnedToolchainSpec)
  | RunToolchainCheck (version : Version)
  | RunToolchainCheckPass (version : Version)
  | RunToolchainCheckFail (version : Version) (error_message : String)
deriving DecidableEq

/-- `ActionDetails` exactly as its enum declaration in `action.rs` reads:
five variants, with no `FetchingIndex` case. -/
inductive ActionDetailsDeclared
  | SetupToolchain (toolchain : OwnedToolchainSpec)
  | CheckToolchain (toolchain : OwnedToolchainSpec)
  | RunToolchainCheck (version : Version)
  | RunToolchainCheckPass (version : Version)
  | RunToolchainCheckFail (version : Version) (error_message : String)
deriving DecidableEq

/-- The evident inclusion of the declared five-variant union into the
six-variant union the rest of the file works with. -/
def ActionDetailsDeclared.toFull : ActionDetailsDeclared → ActionDetails
  | .SetupToolchain t => .SetupToolchain t
  | .CheckToolchain t => .CheckToolchain t
  | .RunToolchainCheck v => .RunToolchainCheck v
  | .RunToolchainCheckPass v => .RunToolchainCheckPass v
  | .RunToolchainCheckFail v e => .RunToolchainCheckFail v e

/-- Recognizer for the `FetchingIndex` variant. -/
def ActionDetails.isFetchingIndex : ActionDetails → Bool
  | .FetchingIndex _ => true
  | _ => false

/-- `impl From<&ActionDetails> for ActionStatus` of `action.rs`. -/
def statusOfDetails : ActionDetails → ActionStatus
  | .FetchingIndex _ => .Fetching
  | .SetupToolchain _ => .Setup
  | .CheckToolchain _ => .Check
  | .RunToolchainCheck _ => .Running
  | .RunToolchainCheckPass _ => .Passed
  | .RunToolchainCheckFail _ _ => .Failed

/-- `impl From<&ActionDetails> for &'static str` of `action.rs`. -/
def nameOfDetails : ActionDetails → String
  | .FetchingIndex _ => "fetching_index"
  | .SetupToolchain _ => "setup_toolchain"
  | .CheckToolchain _ => "check"
  | .RunToolchainCheck _ => "run_check"
  | .RunToolchainCheckPass _ => "check_passed"
  | .RunToolchainCheckFail _ _ => "check_failed"

/-- The `Action` struct of `action.rs`. -/
structure Action where
  name : String
  status : ActionStatus
  details : ActionDetails
  scope : Option ScopePosition
deriving DecidableEq

/-- `Action::new` of `action.rs`: derives name and status from the details
and starts with no scope. -/
def Action.new (action : ActionDetails) : Action :=
  { name := nameOfDetails action
    status := statusOfDetails action
    details := action
    scope := none }

/-- `Action::clone_with_scope_position` of `action.rs`: clone, then
overwrite the scope field. -/
def Action.clone_with_scope_position (a : Action) (position : ScopePosition) : Action :=
  { a with scope := some position }

/-- `Action::must_report` of `action.rs`:
`matches!(self.scope, Some(ScopePosition::Start) | None)`. -/
def Action.must_report (a : Action) : Bool :=
  match a.scope with
  | some .Start => true
  | none => true
  | some .End => false

/-- `Action::fetching_index` factory of `action.rs`. -/
def Action.fetching_index (source : ReleaseSource) : Action :=
  Action.new (.FetchingIndex source)

/-- `Action::setup_toolchain` factory of `action.rs`. -/
def Action.setup_toolchain (toolchain : OwnedToolchainSpec) : Action :=
  Action.new (.SetupToolchain toolchain)

/-- `Action::check_toolchain` factory of `action.rs`. -/
def Action.check_toolchain (toolchain : OwnedToolchainSpec) : Action :=
  Action.new (.CheckToolchain toolchain)

/-- `Action::run_toolchain_check` factory of `action.rs`. -/
def Action.run_toolchain_check (version : Version) : Action :=
  Action.new (.RunToolchainCheck version)

/-- `Action::run_toolchain_check_pass` factory of `action.rs`. -/
def Action.run_toolchain_check_pass (version : Version) : Action :=
  Action.new (.RunToolchainCheckPass version)

/-- `Action::run_toolchain_check_fail` factory of `action.rs`. -/
def Action.run_toolchain_check_fail (version : Version) (error_msg : String) : Action :=
  Action.new (.RunToolchainCheckFail version error_msg)

/-- A minimal JSON value model for the serde serialization shape. -/
inductive Json
  | str (s : String)
  | num (n : Nat)
  | obj (fields : List (String × Json))

/-- Modelled from the spec: the payloads are serialized as data this core
does not interpret; a release source renders as its payload. -/
def ReleaseSource.serialize (s : ReleaseSource) : Json :=
  Json.num s.payload

/-- Modelled from the spec: a toolchain specification renders as its
payload. -/
def OwnedToolchainSpec.serialize (t : OwnedToolchainSpec) : Json :=
  Json.obj [("payload", Json.num t.payload)]

/-- Modelled from the spec: a semantic version renders as its three
components. -/
def Version.serialize (v : Version) : Json :=
  Json.obj [("major", Json.num v.major), ("minor", Json.num v.minor),
    ("patch", Json.num v.patch)]

/-- Serde rendering of `ScopePosition` under
`#[serde(rename_all = "snake_case")]`: unit variants become their
snake-case names. -/
def ScopePosition.serde_str : ScopePosition → String
  | .Start => "start"
  | .End => "end"

/-- Serde rendering of `ActionDetails` under
`#[serde(rename_all = "snake_case")]`: externally tagged, variant tags in
snake case, with the variant fields nested under the tag. -/
def ActionDetails.serialize : ActionDetails → Json
  | .FetchingIndex s =>
      Json.obj [("fetching_index", Json.obj [("source", s.serialize)])]
  | .SetupToolchain t =>
      Json.obj [("setup_toolchain", Json.obj [("toolchain", t.serialize)])]
  | .CheckToolchain t =>
      Json.obj [("check_toolchain", Json.obj [("toolchain", t.serialize)])]
  | .RunToolchainCheck v =>
      Json.obj [("run_toolchain_check", Json.obj [("version", v.serialize)])]
  | .RunToolchainCheckPass v =>
      Json.obj [("run_toolchain_check_pass", Json.obj [("version", v.serialize)])]
  | .RunToolchainCheckFail v e =>
      Json.obj [("run_toolchain_check_fail",
        Json.obj [("version", v.serialize), ("error_message", Json.str e)])]

/-- Serde rendering of the `Action` struct of `action.rs`: `name` and
`details` as stored, `status` under `#[serde(skip)]`, and `scope` under
`#[serde(skip_serializing_if = "Option::is_none")]`. -/
def Action.serializeFields (a : Action) : List (String × Json) :=
  [("name", Json.str a.name), ("details", a.details.serialize)] ++
    match a.scope with
    | none => []
    | some p => [("scope", Json.str p.serde_str)]

/-- The Actions reachable through the public construction surface: one of
the six factories of `action.rs`, followed by any number of
`clone_with_scope_position` steps. -/
inductive Reachable : Action → Prop
  | fetching_index (s : ReleaseSource) : Reachable (Action.fetching_index s)
  | setup_toolchain (t : OwnedToolchainSpec) : Reachable (Action.setup_toolchain t)
  | check_toolchain (t : OwnedToolchainSpec) : Reachable (Action.check_toolchain t)
  | run_toolchain_check (v : Version) : Reachable (Action.run_toolchain_check v)
  | run_toolchain_check_pass (v : Version) : Reachable (Action.run_toolchain_check_pass v)
  | run_toolchain_check_fail (v : Version) (e : String) :
      Reachable (Action.run_toolchain_check_fail v e)
  | attach_scope (a : Action) (p : ScopePosition) :
      Reachable a → Reachable (a.clone_with_scope_position p)

/-- Claim C1: `must_report` is true exactly when the scope is
`Some(Start)` or `None` and false exactly when it is `Some(End)`; attaching
`Start` always yields a reporting Action and attaching `End` never does,
regardless of the original scope. -/
theorem c1_must_report_iff (a : Action) :
    (a.must_report = true ↔ (a.scope = some ScopePosition.Start ∨ a.scope = none)) ∧
    (a.must_report = false ↔ a.scope = some ScopePosition.End) ∧
    (a.clone_with_scope_position ScopePosition.Start).must_report = true ∧
    (a.clone_with_scope_position ScopePosition.End).must_report = false := by
  rcases a with ⟨n, st, d, sc⟩
  rcases sc with _ | p
  · simp [Action.must_report, Action.clone_with_scope_position]
  · cases p <;> simp [Action.must_report, Action.clone_with_scope_position]

/-- Claim C2: the name derivation maps each `ActionDetails` variant to its
fixed string, and every factory-built Action carries the name derived from
its details. -/
theorem c2_name_derivation (s : ReleaseSource) (t : OwnedToolchainSpec)
    (v : Version) (e : String) :
    nameOfDetails (.FetchingIndex s) = "fetching_index" ∧
    nameOfDetails (.SetupToolchain t) = "setup_toolchain" ∧
    nameOfDetails (.CheckToolchain t) = "check" ∧
    nameOfDetails (.RunToolchainCheck v) = "run_check" ∧
    nameOfDetails (.RunToolchainCheckPass v) = "check_passed" ∧
    nameOfDetails (.RunToolchainCheckFail v e) = "check_failed" ∧
    (Action.fetching_index s).name = nameOfDetails (Action.fetching_index s).details ∧
    (Action.setup_toolchain t).name = nameOfDetails (Action.setup_toolchain t).details ∧
    (Action.check_toolchain t).name = nameOfDetails (Action.check_toolchain t).details ∧
    (Action.run_toolchain_check v).name = nameOfDetails (Action.run_toolchain_check v).details ∧
    (Action.run_toolchain_check_pass v).name =
      nameOfDetails (Action.run_toolchain_check_pass v).details ∧
    (Action.run_toolchain_check_fail v e).name =
      nameOfDetails (Action.run_toolchain_check_fail v e).details :=
  ⟨rfl, rfl, rfl, rfl, rfl, rfl, rfl, rfl, rfl, rfl, rfl, rfl⟩

/-- Claim C3: the status derivation maps each `ActionDetails` variant to
its fixed `ActionStatus`, and every factory-built Action carries the status
derived from its details. -/
theorem c3_status_derivation (s : ReleaseSource) (t : OwnedToolchainSpec)
    (v : Version) (e : String) :
    statusOfDetails (.FetchingIndex s) = ActionStatus.Fetching ∧
    statusOfDetails (.SetupToolchain t) = ActionStatus.Setup ∧
    statusOfDetails (.CheckToolchain t) = ActionStatus.Check ∧
    statusOfDetails (.RunToolchainCheck v) = ActionStatus.Running ∧
    statusOfDetails (.RunToolchainCheckPass v) = ActionStatus.Passed ∧
    statusOfDetails (.RunToolchainCheckFail v e) = ActionStatus.Failed ∧
    (Action.fetching_index s).status = statusOfDetails (Action.fetching_index s).details ∧
    (Action.setup_toolchain t).status = statusOfDetails (Action.setup_toolchain t).details ∧
    (Action.check_toolchain t).status = statusOfDetails (Action.check_toolchain t).details ∧
    (Action.run_toolchain_check v).status =
      statusOfDetails (Action.run_toolchain_check v).details ∧
    (Action.run_toolchain_check_pass v).status =
      statusOfDetails (Action.run_toolchain_check_pass v).details ∧
    (Action.run_toolchain_check_fail v e).status =
      statusOfDetails (Action.run_toolchain_check_fail v e).details :=
  ⟨rfl, rfl, rfl, rfl, rfl, rfl, rfl, rfl, rfl, rfl, rfl, rfl⟩

/-- Claim C4: `clone_with_scope_position` returns a new Action whose scope
is `Some(position)` and whose name, status and details equal those of the
receiver; being a pure function of the receiver, it leaves the receiver
itself untouched. -/
theorem c4_attach_scope_frame (a : Action) (p : ScopePosition) :
    (a.clone_with_scope_position p).scope = some p ∧
    (a.clone_with_scope_position p).name = a.name ∧
    (a.clone_with_scope_position p).status = a.status ∧
    (a.clone_with_scope_position p).details = a.details :=
  ⟨rfl, rfl, rfl, rfl⟩

/-- Claim C5: the `ActionDetails` enum declaration in `action.rs` has no
`FetchingIndex` variant — no value of the declared union is a
`FetchingIndex` — even though the `fetching_index` factory builds exactly
that variant (and both `From` impls match on it). -/
theorem c5_fetching_index_missing :
    (∀ d : ActionDetailsDeclared, d.toFull.isFetchingIndex = false) ∧
    (∀ s : ReleaseSource, (Action.fetching_index s).details.isFetchingIndex = true) := by
  constructor
  · intro d
    cases d <;> rfl
  · intro s
    rfl

/-- Claim C6: every factory constructor produces an Action whose scope is
`None`, and consequently every freshly constructed Action satisfies
`must_report() == true`. -/
theorem c6_factories_scope_none (s : ReleaseSource) (t : OwnedToolchainSpec)
    (v : Version) (e : String) :
    (Action.fetching_index s).scope = none ∧
    (Action.setup_toolchain t).scope = none ∧
    (Action.check_toolchain t).scope = none ∧
    (Action.run_toolchain_check v).scope = none ∧
    (Action.run_toolchain_check_pass v).scope = none ∧
    (Action.run_toolchain_check_fail v e).scope = none ∧
    (Action.fetching_index s).must_report = true ∧
    (Action.setup_toolchain t).must_report = true ∧
    (Action.check_toolchain t).must_report = true ∧
    (Action.run_toolchain_check v).must_report = true ∧
    (Action.run_toolchain_check_pass v).must_report = true ∧
    (Action.run_toolchain_check_fail v e).must_report = true :=
  ⟨rfl, rfl, rfl, rfl, rfl, rfl, rfl, rfl, rfl, rfl, rfl, rfl⟩

/-- Claim C7: every Action reachable through the public construction
surface (a factory followed by any sequence of scope attachments) has its
name and status equal to the derivations from its details. -/
theorem c7_reachable_invariant (a : Action) (h : Reachable a) :
    a.name = nameOfDetails a.details ∧ a.status = statusOfDetails a.details := by
  induction h with
  | fetching_index s => exact ⟨rfl, rfl⟩
  | setup_toolchain t => exact ⟨rfl, rfl⟩
  | check_toolchain t => exact ⟨rfl, rfl⟩
  | run_toolchain_check v => exact ⟨rfl, rfl⟩
  | run_toolchain_check_pass v => exact ⟨rfl, rfl⟩
  | run_toolchain_check_fail v e => exact ⟨rfl, rfl⟩
  | attach_scope a p _ ih => exact ih

/-- Witness for claim C7: the invariant holds of a concrete reachable
Action, built by the run-check factory at version 1.60.0 and then
scoped. -/
theorem c7_reachable_invariant_witness :
    Reachable ((Action.run_toolchain_check ⟨1, 60, 0⟩).clone_with_scope_position
      ScopePosition.Start) ∧
    (((Action.run_toolchain_check ⟨1, 60, 0⟩).clone_with_scope_position
        ScopePosition.Start).name =
      nameOfDetails ((Action.run_toolchain_check ⟨1, 60, 0⟩).clone_with_scope_position
        ScopePosition.Start).details ∧
      ((Action.run_toolchain_check ⟨1, 60, 0⟩).clone_with_scope_position
        ScopePosition.Start).status =
      statusOfDetails ((Action.run_toolchain_check ⟨1, 60, 0⟩).clone_with_scope_position
        ScopePosition.Start).details) :=
  ⟨Reachable.attach_scope _ _ (Reachable.run_toolchain_check _),
   c7_reachable_invariant _
     (Reachable.attach_scope _ _ (Reachable.run_toolchain_check _))⟩

/-- Claim C8: the serialized form of any Action never contains a `status`
field, contains `name` and `details` exactly as stored, omits `scope`
entirely when it is `None`, and renders it as the string start or end when
it is `Some(Start)` or `Some(End)`. -/
theorem c8_serialization_shape (n : String) (st : ActionStatus) (d : ActionDetails) :
    (∀ sc : Option ScopePosition,
      ("status" ∈ (Action.serializeFields ⟨n, st, d, sc⟩).map Prod.fst) = False ∧
      ("name", Json.str n) ∈ Action.serializeFields ⟨n, st, d, sc⟩ ∧
      ("details", d.serialize) ∈ Action.serializeFields ⟨n, st, d, sc⟩) ∧
    (Action.serializeFields ⟨n, st, d, none⟩).map Prod.fst = ["name", "details"] ∧
    (Action.serializeFields ⟨n, st, d, some ScopePosition.Start⟩).map Prod.fst =
      ["name", "details", "scope"] ∧
    ("scope", Json.str ("start")) ∈
      Action.serializeFields ⟨n, st, d, some ScopePosition.Start⟩ ∧
    ("scope", Json.str ("end")) ∈
      Action.serializeFields ⟨n, st, d, some ScopePosition.End⟩ := by
  refine ⟨?_, rfl, rfl, ?_, ?_⟩
  · intro sc
    rcases sc with _ | p
    · simp [Action.serializeFields]
    · cases p <;> simp [Action.serializeFields, ScopePosition.serde_str]
  · simp [Action.serializeFields, ScopePosition.serde_str]
  · simp [Action.serializeFields, ScopePosition.serde_str]

/-- Claim C9: `ActionStatus` has exactly the six pairwise distinct variants
Fetching, Check, Setup, Running, Passed, Failed, and `as_str` maps each to
its fixed label. -/
theorem c9_action_status_labels (s : ActionStatus) :
    (s = ActionStatus.Fetching ∨ s = ActionStatus.Check ∨ s = ActionStatus.Setup ∨
      s = ActionStatus.Running ∨ s = ActionStatus.Passed ∨ s = ActionStatus.Failed) ∧
    List.Pairwise (fun x y => ¬ x = y)
      [ActionStatus.Fetching, ActionStatus.Check, ActionStatus.Setup,
       ActionStatus.Running, ActionStatus.Passed, ActionStatus.Failed] ∧
    ActionStatus.Fetching.as_str = "Fetching" ∧
    ActionStatus.Setup.as_str = "Setup" ∧
    ActionStatus.Check.as_str = "Check" ∧
    ActionStatus.Running.as_str = "Running" ∧
    ActionStatus.Passed.as_str = "[Pass]" ∧
    ActionStatus.Failed.as_str = "[Fail]" := by
  refine ⟨?_, by decide, rfl, rfl, rfl, rfl, rfl, rfl⟩
  cases s <;> simp

/-- Claim C10: scope attachment is last-write-wins, hence idempotent:
attaching `p` and then `q` gives the same Action, field for field, as
attaching `q` alone. -/
theorem c10_scope_last_write_wins (a : Action) (p q : ScopePosition) :
    (a.clone_with_scope_position p).clone_with_scope_position q =
      a.clone_with_scope_position q ∧
    ((a.clone_with_scope_position p).clone_with_scope_position q).name =
      (a.clone_with_scope_position q).name ∧
    ((a.clone_with_scope_position p).clone_with_scope_position q).status =
      (a.clone_with_scope_position q).status ∧
    ((a.clone_with_scope_position p).clone_with_scope_position q).details =
      (a.clone_with_scope_position q).details ∧
    ((a.clone_with_scope_position p).clone_with_scope_position q).scope =
      (a.clone_with_scope_position q).scope :=
  ⟨rfl, rfl, rfl, rfl, rfl⟩

end CargoMsrv
